import Mathlib

/-!
Shallow embedding of the Yandex-messenger RAG bot (`bot.py`): the
update-polling/dispatch loop (`main`) and the retrieval pipeline
(`handle_text_message`, `handle_callback_query`).  External collaborators
(embedding provider, vector store, generation service) are modelled as an
explicit environment recording the outcome of each call; the chat client's
`send_message` is modelled from the spec (§4.5) as a best-effort call that
logs and drops failures and never raises, so a handler's behaviour is the
ordered list of sends it attempts plus the external calls it makes.
`.error` on a provider call models the call raising an exception.
-/

set_option autoImplicit false

namespace RagBot

/-- Python truthiness of an optional string value: `None` and `""` are falsy. -/
def pyTruthy : Option String → Bool
  | none => false
  | some s => !(s == "")

/-- Value stored under the "chat" key of a message dict: absent
(`message.get("chat", {})` yields `{}`), present but not a dict, or a dict
with optional "chat_id" and "type" entries. -/
inductive ChatField where
  | absent
  | nonDict
  | dict (chat_id : Option String) (type : Option String)
  deriving DecidableEq, Repr

/-- Value stored under the "from" key of a message dict: absent, present but
not a dict, or a dict with an optional "login" entry. -/
inductive FromField where
  | absent
  | nonDict
  | dict (login : Option String)
  deriving DecidableEq, Repr

/-- A message dict as the handlers access it: the "chat", "from" (`from_`),
"text" and "callback_data" keys. -/
structure Msg where
  chat : ChatField := .absent
  from_ : FromField := .absent
  text : Option String := none
  callback_data : Option String := none
  deriving DecidableEq, Repr

/-- Line 93: the acknowledgment notice sent before retrieval starts. -/
def searchingNotice : String := "🔍 Ищу информацию..."

/-- Line 97: reply when the OpenAI client is not configured. -/
def notConfiguredReply : String := "❌ Ошибка: OpenAI клиент не настроен."

/-- Line 147: reply sent by the `except` handler wrapping the RAG flow. -/
def internalErrorReply : String := "❌ Произошла внутренняя ошибка."

/-- Line 115: reply when the vector search returns no hits. -/
def noInfoReply : String := "⚠️ К сожалению, я не нашел информации по вашему вопросу в базе знаний."

/-- Line 143: reply when the generation service returns a non-200 status. -/
def genErrorReply : String := "❌ Ошибка при генерации ответа."

/-- Line 135: placeholder used when the "answer" field is absent. -/
def emptyAnswerPlaceholder : String := "Пустой ответ от LLM"

/-- Lines 85-87: the static greeting for `/start` and `/help`. -/
def greetingText : String :=
  "👋 Привет! Я RAG-бот для поиска по ВНД.\n\n❓ Задайте мне любой вопрос по внутренним документам, и я найду ответ.\n📂 База знаний обновляется автоматически."

/-- Line 61: the unsupported-interaction notice of `handle_callback_query`. -/
def unsupportedNotice : String := "⚠️ Эта функция временно недоступна в режиме RAG-бота."

/-- Lines 69-74 of `handle_text_message`: resolve the origin chat identifier.
`chat_id = chat_info.get("chat_id") if isinstance(chat_info, dict) else None`;
then, when falsy and "from" is present and `chat_info.get("type")` is
"private", `chat_id = message.get("from", {}).get("login")`.  `.error ()`
models the `AttributeError` raised by `chat_info.get("type")` (resp.
`.get("login")`) when the stored "chat" (resp. "from") value is not a dict. -/
def resolveChatId (message : Msg) : Except Unit (Option String) :=
  let chat_id : Option String :=
    match message.chat with
    | .dict cid _ => cid
    | _ => none
  if pyTruthy chat_id then .ok chat_id
  else
    match message.from_ with
    | .absent => .ok chat_id
    | _ =>
      match message.chat with
      | .nonDict => .error ()
      | .absent => .ok chat_id
      | .dict _ ty =>
        if ty = some "private" then
          match message.from_ with
          | .dict login => .ok login
          | .nonDict => .error ()
          | .absent => .ok chat_id
        else .ok chat_id

/-- Line 76: `text = message.get("text", "")`. -/
def msgText (message : Msg) : String := message.text.getD ""

/-- Python's `text.startswith(tok)`, computed over the underlying character
lists so that concrete instances evaluate inside the kernel. -/
def strStartsWith (s tok : String) : Bool := tok.data.isPrefixOf s.data

/-- Payload of one vector-store hit, with the "text" and "source_file" keys. -/
structure Payload where
  text : Option String := none
  source_file : Option String := none
  deriving DecidableEq, Repr

/-- One vector-store search result (`with_payload=True`). -/
structure Hit where
  payload : Payload
  deriving DecidableEq, Repr

/-- One entry of the context list POSTed to the generation service. -/
structure ContextChunk where
  text : String
  file : String
  deriving DecidableEq, Repr

/-- The JSON payload POSTed to `RAG_BOT_ENDPOINT` (lines 125-129). -/
structure GenRequest where
  question : String
  context : List ContextChunk
  model_provider : String
  deriving DecidableEq, Repr

/-- A generation-service response: HTTP status, the "answer" field of the
parsed JSON body (`.error` when `await response.json()` raises), and the raw
body text read by `response.text()`. -/
structure GenResponse where
  status : Nat
  json : Except Unit (Option String)
  body : String

/-- External provider calls made by the pipeline, recorded in order.  `V` is
the (opaque) embedding-vector type; the bot never inspects a vector. -/
inductive ExtCall (V : Type) where
  | embed (input : String)
  | search (vector : V)
  | generate (req : GenRequest)
  deriving DecidableEq, Repr

/-- True exactly on generation-service calls. -/
def ExtCall.isGen {V : Type} : ExtCall V → Bool
  | .generate _ => true
  | _ => false

/-- Environment of external collaborators: whether the OpenAI client was
constructed (`OPENROUTER_API_KEY` set), and the outcome of each provider
call.  `embed`'s success value is the response's `data` list with each
item's `.embedding` taken; `.error` models the call raising. -/
structure Env (V : Type) where
  openai_configured : Bool
  embed : String → Except Unit (List V)
  search : V → Except Unit (List Hit)
  generate : GenRequest → Except Unit GenResponse

/-- Result of the RAG logic: the messages sent (in order) and the external
calls made. -/
structure RagOut (V : Type) where
  sends : List (String × String)
  calls : List (ExtCall V)

/-- Line 120: `result.payload['text']` raises `KeyError` when absent
(modelled by `none`); `source_file` defaults to "unknown". -/
def chunkOfHit (h : Hit) : Option ContextChunk :=
  match h.payload.text with
  | none => none
  | some t => some { text := t, file := h.payload.source_file.getD "unknown" }

/-- Lines 119-122: build the context list; a `KeyError` on any hit aborts
the comprehension. -/
def assembleContext (hits : List Hit) : Option (List ContextChunk) :=
  hits.mapM chunkOfHit

/-- Lines 92-147: the RAG flow for a free-text question, including the
`except` handler that converts any exception raised inside the `try` block
into the internal-error reply.  Every exception point occurs after the
acknowledgment send and before any further send, so the `except` branch
always produces `[ack, internal-error]`. -/
def ragFlow {V : Type} (env : Env V) (chat_id : String) (text : String) : RagOut V :=
  let ack := (chat_id, searchingNotice)
  if !env.openai_configured then
    { sends := [ack, (chat_id, notConfiguredReply)], calls := [] }
  else
    match env.embed text with
    | .error _ =>
      { sends := [ack, (chat_id, internalErrorReply)], calls := [.embed text] }
    | .ok [] =>
      { sends := [ack, (chat_id, internalErrorReply)], calls := [.embed text] }
    | .ok (v :: _) =>
      match env.search v with
      | .error _ =>
        { sends := [ack, (chat_id, internalErrorReply)], calls := [.embed text, .search v] }
      | .ok search_results =>
        if search_results.isEmpty then
          { sends := [ack, (chat_id, noInfoReply)], calls := [.embed text, .search v] }
        else
          match assembleContext search_results with
          | none =>
            { sends := [ack, (chat_id, internalErrorReply)], calls := [.embed text, .search v] }
          | some context =>
            let payload : GenRequest :=
              { question := text, context := context, model_provider := "openai" }
            match env.generate payload with
            | .error _ =>
              { sends := [ack, (chat_id, internalErrorReply)],
                calls := [.embed text, .search v, .generate payload] }
            | .ok resp =>
              if resp.status = 200 then
                match resp.json with
                | .error _ =>
                  { sends := [ack, (chat_id, internalErrorReply)],
                    calls := [.embed text, .search v, .generate payload] }
                | .ok answerField =>
                  { sends := [ack, (chat_id, answerField.getD emptyAnswerPlaceholder)],
                    calls := [.embed text, .search v, .generate payload] }
              else
                { sends := [ack, (chat_id, genErrorReply)],
                  calls := [.embed text, .search v, .generate payload] }

/-- Outcome of one handler invocation: sends attempted (in order), external
calls made, and whether the handler raised past its boundary. -/
structure HResult (V : Type) where
  sends : List (String × String)
  calls : List (ExtCall V)
  raised : Bool

/-- Lines 64-147, `handle_text_message`: resolve the chat id (a raise there
escapes the handler, as it is outside the `try` block), ignore the event
when the chat id is falsy, answer commands with the static greeting, and
otherwise run the RAG flow. -/
def handle_text_message {V : Type} (env : Env V) (message : Msg) : HResult V :=
  match resolveChatId message with
  | .error _ => { sends := [], calls := [], raised := true }
  | .ok chat_id =>
    let text := msgText message
    match chat_id with
    | none => { sends := [], calls := [], raised := false }
    | some c =>
      if c = "" then { sends := [], calls := [], raised := false }
      else if strStartsWith text "/start" || strStartsWith text "/help" then
        { sends := [(c, greetingText)], calls := [], raised := false }
      else
        let r := ragFlow env c text
        { sends := r.sends, calls := r.calls, raised := false }

/-- Outcome of the callback handler: sends attempted and whether it raised. -/
structure CbResult where
  sends : List (String × String)
  raised : Bool
  deriving DecidableEq, Repr

/-- Lines 55-61, `handle_callback_query`:
`chat_id = callback_query.get("from", {}).get("login")`; the notice is sent
only when that value is truthy.  A non-dict "from" value makes `.get` raise. -/
def handle_callback_query (callback_query : Msg) : CbResult :=
  match callback_query.from_ with
  | .nonDict => { sends := [], raised := true }
  | .absent => { sends := [], raised := false }
  | .dict none => { sends := [], raised := false }
  | .dict (some l) =>
    if l = "" then { sends := [], raised := false }
    else { sends := [(l, unsupportedNotice)], raised := false }

/-- A handler task spawned by the dispatcher. -/
inductive DTask where
  | textTask (m : Msg)
  | callbackTask (m : Msg)
  deriving DecidableEq, Repr

/-- One polled update: its "update_id" and "message" keys, and `selfMsg`,
the update dict itself viewed as a message (used when "message" is absent). -/
structure Update where
  update_id : Option Int := none
  message : Option Msg := none
  selfMsg : Msg := {}
  deriving DecidableEq, Repr

/-- Line 188: `message = update.get("message", update)`. -/
def dispatchMsg (u : Update) : Msg := u.message.getD u.selfMsg

/-- Lines 190-194: spawn at most one handler task per update — a text task
when "text" is present, else a callback task when "callback_data" is
present, else nothing. -/
def dispatch (u : Update) : Option DTask :=
  let m := dispatchMsg u
  if m.text.isSome then some (.textTask m)
  else if m.callback_data.isSome then some (.callbackTask m)
  else none

/-- Lines 180-194, one iteration of the for-loop body: advance the offset to
`max(offset, update.get("update_id", 0) + 1)` and dispatch the update. -/
def processUpdate (acc : Int × List DTask) (u : Update) : Int × List DTask :=
  let offset := max acc.1 (u.update_id.getD 0 + 1)
  match dispatch u with
  | some t => (offset, acc.2 ++ [t])
  | none => (offset, acc.2)

/-- The whole for-loop over one batch of updates. -/
def processUpdates (offset : Int) (updates : List Update) : Int × List DTask :=
  updates.foldl processUpdate (offset, [])

/-- Outcome of one `get_updates` poll: the call raised (caught at line 196)
or returned a list of updates. -/
inductive PollResult where
  | connError
  | ok (updates : List Update)

/-- Observable outcome of one iteration of the `while True` loop: the new
offset, the tasks spawned, and the sleep performed (5 after an exception,
1 after an empty batch, 0 otherwise).  The function is total: every
exception is caught inside the loop, so no iteration terminates the
process. -/
structure IterOut where
  offset : Int
  tasks : List DTask
  sleepSeconds : Nat
  deriving DecidableEq, Repr

/-- Lines 171-198: one iteration of the polling loop. -/
def loopIter (offset : Int) (r : PollResult) : IterOut :=
  match r with
  | .connError => { offset := offset, tasks := [], sleepSeconds := 5 }
  | .ok updates =>
    if updates.isEmpty then { offset := offset, tasks := [], sleepSeconds := 1 }
    else
      let p := processUpdates offset updates
      { offset := p.1, tasks := p.2, sleepSeconds := 0 }

/-- The offset after a sequence of poll iterations. -/
def loopOffset (offset : Int) (rs : List PollResult) : Int :=
  rs.foldl (fun acc r => (loopIter acc r).offset) offset

/-- Truthiness of the chat id resolved by `handle_text_message`: false when
resolution raises or yields a falsy value. -/
def resolvedTruthy (message : Msg) : Bool :=
  match resolveChatId message with
  | .ok cid => pyTruthy cid
  | .error _ => false

/-- Truthiness of the chat id resolved by `handle_callback_query` (the
sender's "login", the only source it consults). -/
def cbLoginTruthy (m : Msg) : Bool :=
  match m.from_ with
  | .dict login => pyTruthy login
  | _ => false

/-! Helper lemmas shared by the claim theorems. -/

theorem processUpdate_fst (acc : Int × List DTask) (u : Update) :
    (processUpdate acc u).1 = max acc.1 (u.update_id.getD 0 + 1) := by
  unfold processUpdate
  cases h : dispatch u <;> simp [h]

theorem foldl_processUpdate_fst_le (updates : List Update) :
    ∀ acc : Int × List DTask, acc.1 ≤ (updates.foldl processUpdate acc).1 := by
  induction updates with
  | nil => intro acc; exact le_refl _
  | cons u us ih =>
    intro acc
    calc acc.1 ≤ (processUpdate acc u).1 := by
          rw [processUpdate_fst]; exact le_max_left _ _
      _ ≤ _ := ih _

theorem offset_le_loopIter (offset : Int) (r : PollResult) :
    offset ≤ (loopIter offset r).offset := by
  cases r with
  | connError => exact le_refl _
  | ok updates =>
    unfold loopIter
    by_cases h : updates.isEmpty
    · simp [h]
    · simp only [h, if_false, Bool.false_eq_true]
      exact foldl_processUpdate_fst_le updates (offset, [])

theorem ragFlow_sends_shape {V : Type} (env : Env V) (cid text : String) :
    ∃ t, (ragFlow env cid text).sends = [(cid, searchingNotice), (cid, t)] := by
  unfold ragFlow
  dsimp only
  repeat' split
  all_goals exact ⟨_, rfl⟩

theorem handle_text_free {V : Type} (env : Env V) (message : Msg) (c : String)
    (hres : resolveChatId message = .ok (some c)) (hc : c ≠ "")
    (hstart : strStartsWith (msgText message) "/start" = false)
    (hhelp : strStartsWith (msgText message) "/help" = false) :
    handle_text_message env message =
      { sends := (ragFlow env c (msgText message)).sends,
        calls := (ragFlow env c (msgText message)).calls,
        raised := false } := by
  unfold handle_text_message
  rw [hres]
  simp [hc, hstart, hhelp]

/-! Claim theorems. -/

/-- C1: the poll loop's cursor is non-decreasing across any sequence of poll
iterations; for every observed update it is advanced to
`max(current, update_id + 1)` (a step that reads only the update's id, so
unrecognized shapes and still-running handlers are included), and batches
with out-of-order ids keep it non-decreasing. -/
theorem cursor_monotone :
    (∀ (acc : Int × List DTask) (u : Update),
        (processUpdate acc u).1 = max acc.1 (u.update_id.getD 0 + 1)) ∧
    (∀ (offset : Int) (updates : List Update),
        offset ≤ (processUpdates offset updates).1) ∧
    (∀ (offset : Int) (rs : List PollResult), offset ≤ loopOffset offset rs) := by
  refine ⟨processUpdate_fst, ?_, ?_⟩
  · intro offset updates
    exact foldl_processUpdate_fst_le updates (offset, [])
  · intro offset rs
    induction rs generalizing offset with
    | nil => exact le_refl _
    | cons r rs ih =>
      calc offset ≤ (loopIter offset r).offset := offset_le_loopIter offset r
        _ ≤ loopOffset (loopIter offset r).offset rs := ih _
        _ = loopOffset offset (r :: rs) := rfl

/-- C8: when a poll request fails, the iteration leaves the cursor
unchanged, spawns no task and sleeps the fixed 5-second interval before
retrying; `loopIter` is total, so no error terminates the loop. -/
theorem connError_keeps_cursor :
    ∀ offset : Int,
      loopIter offset .connError =
        { offset := offset, tasks := [], sleepSeconds := 5 } :=
  fun _ => rfl

/-- C10: per polled update at most one task is dispatched (`dispatch`
returns an `Option`); a message with both "text" and "callback_data" is
handled as a text message, and one with neither spawns no task. -/
theorem dispatch_priority :
    ∀ u : Update,
      ((dispatchMsg u).text.isSome = true →
        dispatch u = some (.textTask (dispatchMsg u))) ∧
      ((dispatchMsg u).text = none → (dispatchMsg u).callback_data.isSome = true →
        dispatch u = some (.callbackTask (dispatchMsg u))) ∧
      ((dispatchMsg u).text = none → (dispatchMsg u).callback_data = none →
        dispatch u = none) := by
  intro u
  refine ⟨?_, ?_, ?_⟩
  · intro h; unfold dispatch; simp [h]
  · intro h h2; unfold dispatch; simp [h, h2]
  · intro h h2; unfold dispatch; simp [h, h2]

/-- Witness for C10 at a message carrying both fields and one carrying
neither. -/
theorem dispatch_priority_witness :
    dispatch { message := some { text := some "hi", callback_data := some "x" } } =
      some (.textTask { text := some "hi", callback_data := some "x" }) ∧
    dispatch { message := some { } } = none :=
  ⟨(dispatch_priority { message := some { text := some "hi", callback_data := some "x" } }).1 rfl,
   (dispatch_priority { message := some { } }).2.2 rfl rfl⟩

/-- C2: for every free-text question with a resolvable (truthy) chat id,
the handler never raises past its boundary and every path — including every
failure of the embedding, search and generation steps, for all
environments — performs exactly one final send after the acknowledgment
notice. -/
theorem pipeline_one_final_send {V : Type} (env : Env V) (message : Msg) (c : String)
    (hres : resolveChatId message = .ok (some c)) (hc : c ≠ "")
    (hstart : strStartsWith (msgText message) "/start" = false)
    (hhelp : strStartsWith (msgText message) "/help" = false) :
    (handle_text_message env message).raised = false ∧
    ∃ t, (handle_text_message env message).sends = [(c, searchingNotice), (c, t)] := by
  rw [handle_text_free env message c hres hc hstart hhelp]
  exact ⟨rfl, ragFlow_sends_shape env c (msgText message)⟩

/-- Environment whose every provider call fails (OpenAI unconfigured). -/
def envAllFail : Env Unit :=
  { openai_configured := false
    embed := fun _ => .error ()
    search := fun _ => .error ()
    generate := fun _ => .error () }

/-- A private-chat question message with chat id "u1". -/
def msgQuestion : Msg :=
  { chat := .dict (some "u1") (some "private"), text := some "What is the leave policy?" }

/-- Witness for C2 at a concrete failing environment and question. -/
theorem pipeline_one_final_send_witness :
    (handle_text_message envAllFail msgQuestion).raised = false ∧
    ∃ t, (handle_text_message envAllFail msgQuestion).sends =
      [("u1", searchingNotice), ("u1", t)] :=
  pipeline_one_final_send envAllFail msgQuestion "u1" rfl (by decide) (by decide) (by decide)

/-- C3: when the vector search returns zero hits, the exact
no-information-found reply is the one final send and the generation service
is never called. -/
theorem no_hits_no_generation {V : Type} (env : Env V) (message : Msg) (c : String)
    (v : V) (vs : List V)
    (hres : resolveChatId message = .ok (some c)) (hc : c ≠ "")
    (hstart : strStartsWith (msgText message) "/start" = false)
    (hhelp : strStartsWith (msgText message) "/help" = false)
    (hconf : env.openai_configured = true)
    (hemb : env.embed (msgText message) = .ok (v :: vs))
    (hsearch : env.search v = .ok []) :
    (handle_text_message env message).sends = [(c, searchingNotice), (c, noInfoReply)] ∧
    ∀ call ∈ (handle_text_message env message).calls, call.isGen = false := by
  rw [handle_text_free env message c hres hc hstart hhelp]
  simp only [ragFlow, hconf, Bool.not_true, Bool.false_eq_true, if_false, hemb, hsearch,
    List.isEmpty_nil, if_true]
  refine ⟨trivial, ?_⟩
  intro call hcall
  simp only [List.mem_cons, List.not_mem_nil, or_false] at hcall
  rcases hcall with h | h <;> subst h <;> rfl

/-- Environment that embeds successfully and finds no hits. -/
def envNoHits : Env Unit :=
  { openai_configured := true
    embed := fun _ => .ok [()]
    search := fun _ => .ok []
    generate := fun _ => .error () }

/-- Witness for C3 at a concrete empty-search environment. -/
theorem no_hits_no_generation_witness :
    (handle_text_message envNoHits msgQuestion).sends =
      [("u1", searchingNotice), ("u1", noInfoReply)] ∧
    ∀ call ∈ (handle_text_message envNoHits msgQuestion).calls, call.isGen = false :=
  no_hits_no_generation envNoHits msgQuestion "u1" () [] rfl (by decide) (by decide)
    (by decide) rfl rfl rfl

/-- C6: a text starting with `/start` or `/help` gets the static greeting
and the pipeline (embedding, search, generation) is never invoked. -/
theorem command_sends_greeting {V : Type} (env : Env V) (message : Msg) (c : String)
    (hres : resolveChatId message = .ok (some c)) (hc : c ≠ "")
    (hcmd : strStartsWith (msgText message) "/start" = true ∨
      strStartsWith (msgText message) "/help" = true) :
    handle_text_message env message =
      { sends := [(c, greetingText)], calls := [], raised := false } := by
  unfold handle_text_message
  rw [hres]
  rcases hcmd with h | h <;> simp [hc, h]

/-- A private-chat `/help` message with chat id "u1". -/
def msgHelp : Msg :=
  { chat := .dict (some "u1") none, text := some "/help" }

/-- Witness for C6 at a concrete `/help` message. -/
theorem command_sends_greeting_witness :
    handle_text_message envAllFail msgHelp =
      { sends := [("u1", greetingText)], calls := [], raised := false } :=
  command_sends_greeting envAllFail msgHelp "u1" rfl (by decide) (Or.inr (by decide))

/-- A hit whose payload has both a "text" and a "source_file" entry. -/
def hitLeave : Hit :=
  { payload := { text := some "Leave policy: 20 days", source_file := some "hr.pdf" } }

/-- Environment whose generation service answers with HTTP status 201 and a
well-formed answer body. -/
def env201 : Env Unit :=
  { openai_configured := true
    embed := fun _ => .ok [()]
    search := fun _ => .ok [hitLeave]
    generate := fun _ =>
      .ok { status := 201, json := .ok (some "20 days of leave per year."), body := "" } }

/-- Counterexample to C4 as stated: 201 is a 2xx status, yet the code
(which tests `response.status == 200`) treats it as a hard failure — the
generic generation-failure reply is sent instead of the response's
answer. -/
theorem status201_treated_as_failure :
    (200 ≤ 201 ∧ 201 < 300) ∧
    (handle_text_message env201 msgQuestion).sends =
      [("u1", searchingNotice), ("u1", genErrorReply)] ∧
    genErrorReply ≠ "20 days of leave per year." := by
  exact ⟨by decide, by decide, by decide⟩

/-- C4 (amended): the Generate step treats a response as successful exactly
when its HTTP status is 200; every non-200 status (other 2xx statuses
included) yields the generic generation-failure reply, and the raw error
body never appears in the outbound text. -/
theorem non200_generic_reply {V : Type} (env : Env V) (message : Msg) (c : String)
    (v : V) (vs : List V) (hits : List Hit) (ctx : List ContextChunk) (resp : GenResponse)
    (hres : resolveChatId message = .ok (some c)) (hc : c ≠ "")
    (hstart : strStartsWith (msgText message) "/start" = false)
    (hhelp : strStartsWith (msgText message) "/help" = false)
    (hconf : env.openai_configured = true)
    (hemb : env.embed (msgText message) = .ok (v :: vs))
    (hsearch : env.search v = .ok hits)
    (hne : hits.isEmpty = false)
    (hctx : assembleContext hits = some ctx)
    (hgen : env.generate
      { question := msgText message, context := ctx, model_provider := "openai" } = .ok resp)
    (hstatus : resp.status ≠ 200) :
    (handle_text_message env message).sends = [(c, searchingNotice), (c, genErrorReply)] ∧
    (resp.body ≠ searchingNotice → resp.body ≠ genErrorReply →
      ∀ p ∈ (handle_text_message env message).sends, p.2 ≠ resp.body) := by
  have hmain :
      (handle_text_message env message).sends = [(c, searchingNotice), (c, genErrorReply)] := by
    rw [handle_text_free env message c hres hc hstart hhelp]
    simp only [ragFlow, hconf, Bool.not_true, Bool.false_eq_true, if_false, hemb, hsearch,
      hne, hctx, hgen, hstatus, if_true]
  refine ⟨hmain, ?_⟩
  intro h1 h2 p hp
  rw [hmain] at hp
  simp only [List.mem_cons, List.not_mem_nil, or_false] at hp
  rcases hp with h | h <;> subst h
  · exact fun he => h1 he.symm
  · exact fun he => h2 he.symm

/-- Environment whose generation service fails with HTTP status 500 and an
error body. -/
def env500 : Env Unit :=
  { openai_configured := true
    embed := fun _ => .ok [()]
    search := fun _ => .ok [hitLeave]
    generate := fun _ =>
      .ok { status := 500, json := .error (), body := "Internal Server Error" } }

/-- Witness for the amended C4 at a concrete 500 response. -/
theorem non200_generic_reply_witness :
    (handle_text_message env500 msgQuestion).sends =
      [("u1", searchingNotice), ("u1", genErrorReply)] ∧
    ("Internal Server Error" ≠ searchingNotice → "Internal Server Error" ≠ genErrorReply →
      ∀ p ∈ (handle_text_message env500 msgQuestion).sends,
        p.2 ≠ "Internal Server Error") :=
  non200_generic_reply env500 msgQuestion "u1" () [] [hitLeave]
    [{ text := "Leave policy: 20 days", file := "hr.pdf" }]
    { status := 500, json := .error (), body := "Internal Server Error" }
    rfl (by decide) (by decide) (by decide) rfl rfl rfl rfl rfl rfl (by decide)

/-- Environment whose generation service answers with HTTP status 201 and a
JSON body lacking the "answer" field. -/
def env201NoAnswer : Env Unit :=
  { openai_configured := true
    embed := fun _ => .ok [()]
    search := fun _ => .ok [hitLeave]
    generate := fun _ => .ok { status := 201, json := .ok none, body := "" } }

/-- Counterexample to C9 as stated: 201 is a successful (2xx) status and
this response lacks the "answer" field, yet the code (which tests
`response.status == 200`) sends the generic generation-failure reply, not
the empty-answer placeholder. -/
theorem status201_no_answer_no_placeholder :
    (200 ≤ 201 ∧ 201 < 300) ∧
    (handle_text_message env201NoAnswer msgQuestion).sends =
      [("u1", searchingNotice), ("u1", genErrorReply)] ∧
    genErrorReply ≠ emptyAnswerPlaceholder := by
  exact ⟨by decide, by decide, by decide⟩

/-- C9 (amended): a status-200 generation response whose JSON body lacks
the "answer" field yields the empty-answer placeholder as the reply, with
no failure; other 2xx statuses instead take the generation-failure
branch. -/
theorem absent_answer_placeholder {V : Type} (env : Env V) (message : Msg) (c : String)
    (v : V) (vs : List V) (hits : List Hit) (ctx : List ContextChunk) (resp : GenResponse)
    (hres : resolveChatId message = .ok (some c)) (hc : c ≠ "")
    (hstart : strStartsWith (msgText message) "/start" = false)
    (hhelp : strStartsWith (msgText message) "/help" = false)
    (hconf : env.openai_configured = true)
    (hemb : env.embed (msgText message) = .ok (v :: vs))
    (hsearch : env.search v = .ok hits)
    (hne : hits.isEmpty = false)
    (hctx : assembleContext hits = some ctx)
    (hgen : env.generate
      { question := msgText message, context := ctx, model_provider := "openai" } = .ok resp)
    (hstatus : resp.status = 200) (hjson : resp.json = .ok none) :
    (handle_text_message env message).sends =
      [(c, searchingNotice), (c, emptyAnswerPlaceholder)] ∧
    (handle_text_message env message).raised = false := by
  rw [handle_text_free env message c hres hc hstart hhelp]
  simp only [ragFlow, hconf, Bool.not_true, Bool.false_eq_true, if_false, hemb, hsearch,
    hne, hctx, hgen, hstatus, hjson, if_true, Option.getD_none]
  exact ⟨trivial, trivial⟩

/-- Environment whose generation service returns 200 with a JSON body
lacking the "answer" field. -/
def env200NoAnswer : Env Unit :=
  { openai_configured := true
    embed := fun _ => .ok [()]
    search := fun _ => .ok [hitLeave]
    generate := fun _ => .ok { status := 200, json := .ok none, body := "" } }

/-- Witness for C9 at a concrete answer-less 200 response. -/
theorem absent_answer_placeholder_witness :
    (handle_text_message env200NoAnswer msgQuestion).sends =
      [("u1", searchingNotice), ("u1", emptyAnswerPlaceholder)] ∧
    (handle_text_message env200NoAnswer msgQuestion).raised = false :=
  absent_answer_placeholder env200NoAnswer msgQuestion "u1" () [] [hitLeave]
    [{ text := "Leave policy: 20 days", file := "hr.pdf" }]
    { status := 200, json := .ok none, body := "" }
    rfl (by decide) (by decide) (by decide) rfl rfl rfl rfl rfl rfl rfl rfl

/-- A button-interaction message in a group conversation: no "chat_id"
field, type "group", but a sender login. -/
def cbGroupMsg : Msg :=
  { chat := .dict none (some "group"), from_ := .dict (some "u3"), callback_data := some "x" }

/-- The update carrying `cbGroupMsg`. -/
def cbGroupUpdate : Update := { update_id := some 9, message := some cbGroupMsg }

/-- Counterexample to C5 as stated: this event has no chat id resolvable by
the claimed order (no explicit chat id, conversation type not private), yet
the dispatcher routes it to `handle_callback_query`, which resolves the
sender's login unconditionally and attempts a send. -/
theorem unresolvable_event_still_sends :
    resolvedTruthy cbGroupMsg = false ∧
    dispatch cbGroupUpdate = some (.callbackTask cbGroupMsg) ∧
    (handle_callback_query cbGroupMsg).sends = [("u3", unsupportedNotice)] := by
  exact ⟨by decide, by decide, by decide⟩

/-- C5 (amended): an event handled by the text-message handler whose chat
id resolution raises or yields a falsy value attempts no send, regardless
of its text; a button interaction attempts no send when the sender's login
(the only source its handler consults) is absent or falsy. -/
theorem unresolved_no_send :
    (∀ (V : Type) (env : Env V) (message : Msg), resolvedTruthy message = false →
      (handle_text_message env message).sends = []) ∧
    (∀ m : Msg, cbLoginTruthy m = false → (handle_callback_query m).sends = []) := by
  constructor
  · intro V env message h
    unfold resolvedTruthy at h
    unfold handle_text_message
    cases hres : resolveChatId message with
    | error e => simp
    | ok cid =>
      rw [hres] at h
      cases cid with
      | none => simp
      | some c =>
        have hc : c = "" := by simpa [pyTruthy] using h
        subst hc
        simp
  · intro m h
    unfold cbLoginTruthy at h
    unfold handle_callback_query
    cases hf : m.from_ with
    | absent => simp
    | nonDict => simp
    | dict login =>
      rw [hf] at h
      cases login with
      | none => simp
      | some l =>
        have hl : l = "" := by simpa [pyTruthy] using h
        subst hl
        simp

/-- Witness for the amended C5 at a chat-less text message and a login-less
button interaction. -/
theorem unresolved_no_send_witness :
    (handle_text_message envAllFail { text := some "hello" }).sends = [] ∧
    (handle_callback_query { callback_data := some "x" }).sends = [] :=
  ⟨unresolved_no_send.1 Unit envAllFail { text := some "hello" } (by decide),
   unresolved_no_send.2 { callback_data := some "x" } (by decide)⟩

/-- A button-interaction message whose chat id is resolvable by the shared
order (explicit "chat_id" field) but whose sender has no login. -/
def chatOnlyCb : Msg :=
  { chat := .dict (some "c1") (some "group"), callback_data := some "y" }

/-- Counterexample to C7 as stated: this button interaction has a
resolvable chat id by the claimed shared order (explicit "chat_id" field
"c1"), yet `handle_callback_query` consults only the sender's login and
sends nothing. -/
theorem resolvable_callback_not_notified :
    resolveChatId chatOnlyCb = .ok (some "c1") ∧
    resolvedTruthy chatOnlyCb = true ∧
    (handle_callback_query chatOnlyCb).sends = [] := by
  exact ⟨rfl, by decide, by decide⟩

/-- C7 (amended): the unsupported-interaction notice is sent exactly to the
sender's login when it is present and truthy — the callback handler's chat
id resolution consults only `from.login`, not the explicit chat id field or
the conversation type. -/
theorem callback_notice_from_login (m : Msg) (l : String)
    (hfrom : m.from_ = .dict (some l)) (hl : l ≠ "") :
    handle_callback_query m = { sends := [(l, unsupportedNotice)], raised := false } := by
  unfold handle_callback_query
  rw [hfrom]
  simp [hl]

/-- A button interaction whose sender login is "u9". -/
def cbLoginMsg : Msg := { from_ := .dict (some "u9"), callback_data := some "z" }

/-- Witness for the amended C7 at a concrete login-bearing interaction. -/
theorem callback_notice_from_login_witness :
    handle_callback_query cbLoginMsg =
      { sends := [("u9", unsupportedNotice)], raised := false } :=
  callback_notice_from_login cbLoginMsg "u9" rfl (by decide)

end RagBot
